import Mathlib

/-!
Verification development for the tv-tool ingestion/normalization/scoring
pipeline.  Python code is shallowly embedded: floats are modelled as exact
rationals (`ℚ`), Python `None` as `Option.none`, dictionaries as association
lists with unique keys, and SQLite tables as lists of typed rows.  String
operations are modelled over ASCII character lists (the data handled by the
pipeline is ASCII); all definitions are executable.
-/

set_option maxRecDepth 4000

/-! ## Python string primitives (modelled over `List Char`) -/

/-- Truthiness of an optional Python string: `None` and `""` are falsy. -/
def truthyS (v : Option String) : Bool :=
  match v with
  | none => false
  | some s => !s.isEmpty

/-- Python `a or b` on optional strings: returns `b` whenever `a` is falsy. -/
def pyOrS (a b : Option String) : Option String :=
  if truthyS a then a else b

/-- Python `a or b` on optional integers: `None` and `0` are falsy. -/
def pyOrI (a b : Option Int) : Option Int :=
  match a with
  | none => b
  | some n => if n = 0 then b else a

/-- Python `s or default` on plain strings (empty string is falsy). -/
def pyOrStr (s default : String) : String :=
  if s.isEmpty then default else s

/-- Python `needle in haystack` for strings. -/
def strContains (hay needle : String) : Bool :=
  hay.data.tails.any (fun t => needle.data.isPrefixOf t)

/-- Python `s.lower()` (ASCII model). -/
def pyLower (s : String) : String :=
  String.mk (s.data.map Char.toLower)

/-- Python `s.upper()` (ASCII model). -/
def pyUpper (s : String) : String :=
  String.mk (s.data.map Char.toUpper)

/-- Python `s.strip()` (whitespace model restricted to ASCII whitespace). -/
def pyStrip (s : String) : String :=
  String.mk (((s.data.dropWhile Char.isWhitespace).reverse.dropWhile Char.isWhitespace).reverse)

/-- Python `s.startswith(pat)`. -/
def pyStartsWith (s pat : String) : Bool :=
  pat.data.isPrefixOf s.data

/-- Python `s.endswith(pat)`. -/
def pyEndsWith (s pat : String) : Bool :=
  pat.data.isSuffixOf s.data

/-- Drop the last `n` characters, Python `s[:-n]` for `0 < n ≤ len(s)`. -/
def strDropRight (s : String) (n : Nat) : String :=
  String.mk (s.data.take (s.data.length - n))

/-- One scan of Python `str.replace`: replace every non-overlapping
occurrence of `pat` (nonempty) by `rep`, scanning left to right.  The `fuel`
argument (instantiated with the input length, which bounds the number of
steps since every step consumes at least one character) keeps the recursion
structural. -/
def replaceCharsAux (pat rep : List Char) : Nat → List Char → List Char
  | 0, l => l
  | _ + 1, [] => []
  | fuel + 1, c :: rest =>
    if pat.isPrefixOf (c :: rest) ∧ pat ≠ [] then
      rep ++ replaceCharsAux pat rep fuel (rest.drop (pat.length - 1))
    else
      c :: replaceCharsAux pat rep fuel rest

/-- Python `s.replace(pat, rep)` (for nonempty `pat`, the only use here). -/
def pyReplace (s pat rep : String) : String :=
  String.mk (replaceCharsAux pat.data rep.data s.data.length s.data)

/-! ## Numeric text parsers

`src/app.py` parses compact magnitude strings and percentages out of free
text with regular expressions; the scanners below implement exactly the
backtracking semantics of those regexes. -/

/-- Numeric value of a digit run, most significant first. -/
def digitsVal (ds : List Char) : ℚ :=
  ds.foldl (fun a c => a * 10 + (Int.ofNat (c.toNat - 48) : ℚ)) 0

/-- Value of a fractional digit run `ds` read after a decimal point. -/
def fracVal (ds : List Char) : ℚ :=
  digitsVal ds / ((10 : ℚ) ^ ds.length)

/-- Does the remainder match `\s*%` at its start? -/
def startsWithPctAfterWs (cs : List Char) : Bool :=
  match cs.dropWhile Char.isWhitespace with
  | '%' :: _ => true
  | _ => false

/-- Attempt to match the regex `([0-9]+(?:\.[0-9]+)?)\s*%` from
`truevibe/scoring.py` at the start of `cs`, returning the numeric group. -/
def pctMatchAt (cs : List Char) : Option ℚ :=
  match cs with
  | [] => none
  | c :: _ =>
    if c.isDigit then
      let ds := cs.takeWhile Char.isDigit
      let r1 := cs.dropWhile Char.isDigit
      let withFrac : Option ℚ :=
        match r1 with
        | '.' :: r2 =>
          let fs := r2.takeWhile Char.isDigit
          let r3 := r2.dropWhile Char.isDigit
          if fs ≠ [] ∧ startsWithPctAfterWs r3 then some (digitsVal ds + fracVal fs)
          else none
        | _ => none
      match withFrac with
      | some v => some v
      | none => if startsWithPctAfterWs r1 then some (digitsVal ds) else none
    else none

/-- `re.search` for the percentage regex: earliest starting position wins. -/
def pctSearch : List Char → Option ℚ
  | [] => none
  | c :: rest =>
    match pctMatchAt (c :: rest) with
    | some v => some v
    | none => pctSearch rest

/-- `truevibe/scoring.py` `_parse_percentage`: falsy input (`None` or the
empty string) yields `None`, otherwise the first `number%` found anywhere. -/
def parse_percentage (value : Option String) : Option ℚ :=
  match value with
  | none => none
  | some s => if s.isEmpty then none else pctSearch s.data

/-- Attempt to match `-?\d+(?:\.\d+)?` at the start of `cs` (greedy; with no
trailing anchor the greedy match always succeeds once the digits start). -/
def numMatchAt (cs : List Char) : Option ℚ :=
  match cs with
  | [] => none
  | '-' :: rest =>
    (match rest with
     | c :: _ =>
       if c.isDigit then
         let ds := rest.takeWhile Char.isDigit
         let r1 := rest.dropWhile Char.isDigit
         match r1 with
         | '.' :: r2 =>
           let fs := r2.takeWhile Char.isDigit
           if fs ≠ [] then some (-(digitsVal ds + fracVal fs)) else some (-(digitsVal ds))
         | _ => some (-(digitsVal ds))
       else none
     | [] => none)
  | c :: _ =>
    if c.isDigit then
      let ds := cs.takeWhile Char.isDigit
      let r1 := cs.dropWhile Char.isDigit
      match r1 with
      | '.' :: r2 =>
        let fs := r2.takeWhile Char.isDigit
        if fs ≠ [] then some (digitsVal ds + fracVal fs) else some (digitsVal ds)
      | _ => some (digitsVal ds)
    else none

/-- `re.search` for `-?\d+(?:\.\d+)?`: earliest starting position wins. -/
def numSearch : List Char → Option ℚ
  | [] => none
  | c :: rest =>
    match numMatchAt (c :: rest) with
    | some v => some v
    | none => numSearch rest

/-- `src/app.py` `_parse_percentage_value`: drop every `%`, then take the
first signed decimal number found anywhere in the remaining text. -/
def parse_percentage_value (raw : String) : Option ℚ :=
  numSearch (pyReplace raw ("%") ("")).data

/-- Model of Python `float(text)` restricted to finite decimal literals
(optional sign, digits with optional fraction, optional exponent).  The
non-finite spellings (`inf`, `nan`) and PEP 515 underscore grouping fall
outside the rational model and yield `none`. -/
def pyFloatChars (cs : List Char) : Option ℚ :=
  let signed : Bool × List Char :=
    match cs with
    | '-' :: t => (true, t)
    | '+' :: t => (false, t)
    | _ => (false, cs)
  let neg := signed.1
  let body := signed.2
  let ds := body.takeWhile Char.isDigit
  let r1 := body.dropWhile Char.isDigit
  let mantissa : Option (ℚ × List Char) :=
    match r1 with
    | '.' :: r2 =>
      let fs := r2.takeWhile Char.isDigit
      let r3 := r2.dropWhile Char.isDigit
      if ds = [] ∧ fs = [] then none
      else some (digitsVal ds + fracVal fs, r3)
    | _ => if ds = [] then none else some (digitsVal ds, r1)
  match mantissa with
  | none => none
  | some (m, rest) =>
    let exponent : Option (Int × List Char) :=
      match rest with
      | 'E' :: t =>
        let es : Bool × List Char :=
          match t with
          | '-' :: u => (true, u)
          | '+' :: u => (false, u)
          | _ => (false, t)
        let eds := es.2.takeWhile Char.isDigit
        let r4 := es.2.dropWhile Char.isDigit
        if eds = [] then none
        else some ((if es.1 then -(digitsVal eds).num else (digitsVal eds).num), r4)
      | 'e' :: t =>
        let es : Bool × List Char :=
          match t with
          | '-' :: u => (true, u)
          | '+' :: u => (false, u)
          | _ => (false, t)
        let eds := es.2.takeWhile Char.isDigit
        let r4 := es.2.dropWhile Char.isDigit
        if eds = [] then none
        else some ((if es.1 then -(digitsVal eds).num else (digitsVal eds).num), r4)
      | _ => some (0, rest)
    match exponent with
    | none => none
    | some (e, r5) =>
      if r5 = [] then some ((if neg then -m else m) * (10 : ℚ) ^ e)
      else none

/-- Match the anchored regex `(-?\d+(?:\.\d+)?)([KMB]?)$` from
`src/app.py` `_parse_compact_number`. -/
def compactMatch (cs : List Char) : Option ℚ :=
  let signed : Bool × List Char :=
    match cs with
    | '-' :: t => (true, t)
    | _ => (false, cs)
  let neg := signed.1
  let body := signed.2
  let ds := body.takeWhile Char.isDigit
  let r1 := body.dropWhile Char.isDigit
  if ds = [] then none
  else
    let numAndRest : ℚ × List Char :=
      match r1 with
      | '.' :: r2 =>
        let fs := r2.takeWhile Char.isDigit
        let r3 := r2.dropWhile Char.isDigit
        if fs = [] then (digitsVal ds, r1) else (digitsVal ds + fracVal fs, r3)
      | _ => (digitsVal ds, r1)
    let num := if neg then -numAndRest.1 else numAndRest.1
    match numAndRest.2 with
    | [] => some num
    | [c] =>
      if c = 'K' then some (num * 1000)
      else if c = 'M' then some (num * 1000000)
      else if c = 'B' then some (num * 1000000000)
      else none
    | _ => none

/-- `src/app.py` `_parse_compact_number`: strip commas, trim, uppercase; match
the compact-magnitude regex, multiplying by the `K`/`M`/`B` suffix; when the
regex fails, fall back to Python `float()`. -/
def parse_compact_number (raw : String) : Option ℚ :=
  let cleaned := pyUpper (pyStrip (pyReplace raw (",") ("")))
  match compactMatch cleaned.data with
  | some v => some v
  | none => pyFloatChars cleaned.data

/-! ## Rounding

Python `round(x, n)` uses round-half-to-even; it is modelled exactly over
rationals. -/

/-- Round a rational to the nearest integer, ties to even. -/
def pyRoundInt (q : ℚ) : ℤ :=
  let f := ⌊q⌋
  let r := q - (f : ℚ)
  if r < 1 / 2 then f
  else if 1 / 2 < r then f + 1
  else if f % 2 = 0 then f else f + 1

/-- Python `round(q, 2)`. -/
def pyRound2 (q : ℚ) : ℚ :=
  ((pyRoundInt (q * 100) : ℤ) : ℚ) / 100

/-- Python `round(q, 4)`. -/
def pyRound4 (q : ℚ) : ℚ :=
  ((pyRoundInt (q * 10000) : ℤ) : ℚ) / 10000

/-! ## `truevibe/scoring.py` -/

/-- `_clamp`: clamp a score into `[1, 5]`. -/
def clampScore (score : ℚ) : ℚ :=
  max 1 (min 5 score)

/-- `_average`: mean of the non-`None` values, `0.0` when none remain. -/
def pyAverage (values : List (Option ℚ)) : ℚ :=
  let cleaned := values.filterMap id
  if cleaned = [] then 0 else cleaned.sum / cleaned.length

/-- `compute_content_score`: mean of the clamped originality, creativity and
(optionally) balance inputs, rounded to two decimals. -/
def compute_content_score (originality creativity : ℚ) (balance : Option ℚ) : ℚ :=
  pyRound2 (pyAverage [some (clampScore originality), some (clampScore creativity),
    balance.map clampScore])

/-- `compute_authority_score`: mean of the clamped non-`None` components,
rounded to two decimals; `0.0` when no component is given. -/
def compute_authority_score (components : List (Option ℚ)) : ℚ :=
  let cleaned := (components.filterMap id).map clampScore
  if cleaned = [] then 0 else pyRound2 (cleaned.sum / cleaned.length)

/-- `compute_values_score`: same formula as the authority score. -/
def compute_values_score (components : List (Option ℚ)) : ℚ :=
  let cleaned := (components.filterMap id).map clampScore
  if cleaned = [] then 0 else pyRound2 (cleaned.sum / cleaned.length)

/-- `_keyword_set`: tokens of the non-falsy parts, where a token is a maximal
run of (ASCII) alphanumeric characters of the lower-cased text with length at
least 3. -/
def alnumRunsAux (acc : List Char) : List Char → List (List Char)
  | [] => if acc.isEmpty then [] else [acc.reverse]
  | c :: rest =>
    if c.isAlphanum then alnumRunsAux (c :: acc) rest
    else if acc.isEmpty then alnumRunsAux [] rest
    else acc.reverse :: alnumRunsAux [] rest

/-- Maximal alphanumeric runs of a character list (the matches of the regex
`[A-Za-z0-9]+`). -/
def alnumRuns (cs : List Char) : List (List Char) :=
  alnumRunsAux [] cs

/-- Tokens of one text part: lower-case, split into alphanumeric runs, keep
runs of length at least 3. -/
def keywordTokens (s : String) : List String :=
  ((alnumRuns (pyLower s).data).filter (fun run => 3 ≤ run.length)).map String.mk

/-- `_keyword_set` over the (variadic) list of optional parts. -/
def keyword_set (parts : List (Option String)) : Finset String :=
  (parts.foldr
    (fun part acc =>
      match part with
      | none => acc
      | some s => if s.isEmpty then acc else keywordTokens s ++ acc)
    []).toFinset

/-- `estimate_interest_score`: neutral `3.0` when either token set is empty,
otherwise bucketed by the overlap size. -/
def estimate_interest_score (topic_text objective_text : Option String) : ℚ :=
  let topic_tokens := keyword_set [topic_text]
  let objective_tokens := keyword_set [objective_text]
  if topic_tokens = ∅ ∨ objective_tokens = ∅ then 3
  else
    let overlap := (topic_tokens ∩ objective_tokens).card
    if 3 ≤ overlap then 5
    else if overlap = 2 then 4
    else if overlap = 1 then 7 / 2
    else 5 / 2

/-- One dictionary of free-text profile details; the values are the scraped
strings (Python `None` is `Option.none`). -/
def DetailsDict : Type := List (String × Option String)

/-- Python `dict.get`: the unique binding of the key, `None` when the key is
absent (details dictionaries have unique keys). -/
def pyGetS (d : DetailsDict) (k : String) : Option String :=
  match d.find? (fun e => e.1 = k) with
  | some e => e.2
  | none => none

/-- `extract_engagement_rate`: try the three detail keys in priority order
through `_parse_percentage`; `0.0` when the details are not a dict or no key
yields a parseable percentage. -/
def extract_engagement_rate (details : Option DetailsDict) : ℚ :=
  match details with
  | none => 0
  | some d =>
    match parse_percentage (pyGetS d ("Instagram Engagement Rate")) with
    | some rate => rate
    | none =>
      match parse_percentage (pyGetS d ("TikTok Engagement Rate")) with
      | some rate => rate
      | none =>
        match parse_percentage (pyGetS d ("Engagement Rate")) with
        | some rate => rate
        | none => 0

/-- `compute_total_score`: clamp the three quantitative scores, add the three
qualitative scores, round to two decimals. -/
def compute_total_score (reach_score interest_score engagement_score
    content_score authority_score values_score : ℚ) : ℚ :=
  pyRound2 (clampScore reach_score + clampScore interest_score
    + clampScore engagement_score + content_score + authority_score + values_score)

/-- Values stored in a score payload. -/
inductive PayloadValue where
  | num (q : ℚ)
  | str (s : String)
deriving DecidableEq

/-- `build_score_payload` from `truevibe/scoring.py`, returned as the ordered
key/value association its Python dict literal builds.  Note: `engagement_rate
or 0.0` is the identity on a numeric argument (`0.0 or 0.0 == 0.0`). -/
def build_score_payload (reach_score interest_score engagement_rate
    engagement_score content_originality content_creativity authority_overall
    values_overall : ℚ) (qualitative_notes : String) : List (String × PayloadValue) :=
  let content_score := compute_content_score content_originality content_creativity none
  let authority_score := compute_authority_score [some authority_overall]
  let values_score := compute_values_score [some values_overall]
  let total_score := compute_total_score reach_score interest_score
    engagement_score content_score authority_score values_score
  [("reach_score", .num (pyRound2 (clampScore reach_score))),
   ("interest_score", .num (pyRound2 (clampScore interest_score))),
   ("engagement_rate", .num (pyRound4 engagement_rate)),
   ("engagement_score", .num (pyRound2 (clampScore engagement_score))),
   ("content_originality", .num (pyRound2 (clampScore content_originality))),
   ("content_creativity", .num (pyRound2 (clampScore content_creativity))),
   ("content_score", .num content_score),
   ("authority_score", .num authority_score),
   ("values_score", .num values_score),
   ("total_score", .num total_score),
   ("qualitative_notes", .str (pyStrip qualitative_notes))]

/-- The keyword parameters accepted by `build_score_payload` in
`truevibe/scoring.py` (its signature is keyword-only and has no `**kwargs`). -/
def build_score_payload_params : List String :=
  ["reach_score", "interest_score", "engagement_rate", "engagement_score",
   "content_originality", "content_creativity", "authority_overall",
   "values_overall", "qualitative_notes"]

/-- The keyword arguments `render_scoring_form` in `src/app.py` passes to
`scoring.build_score_payload` when the analyst submits the score form. -/
def render_scoring_form_call_keywords : List String :=
  ["reach_score", "interest_score", "engagement_rate", "engagement_score",
   "content_balance_score", "organic_posts_l2m", "sponsored_posts_l2m",
   "saturation_rate", "content_originality", "content_creativity",
   "authority_overall", "values_overall", "qualitative_notes"]

/-- Key lookup on a score payload. -/
def payloadGet (p : List (String × PayloadValue)) (k : String) : Option PayloadValue :=
  match p.find? (fun e => e.1 = k) with
  | some e => some e.2
  | none => none

/-- `SCORE_COLUMNS` from `truevibe/database.py`: the columns
`save_campaign_influencer_scores` overwrites, reading `payload.get(column)`
for each. -/
def SCORE_COLUMNS : List String :=
  ["reach_score", "interest_score", "engagement_rate", "engagement_score",
   "content_balance", "organic_posts_l2m", "sponsored_posts_l2m",
   "saturation_rate", "content_originality", "content_creativity",
   "content_score", "authority_credentials", "authority_professionalism",
   "authority_reputation", "authority_score", "values_alignment",
   "values_neutrality", "values_authenticity", "values_score", "total_score",
   "qualitative_notes"]

/-! ## `src/app.py` saturation and detail normalization -/

/-- `_compute_saturation_rate`: `None` unless sponsored is a positive count,
negative (or `None`) organic clamped to `0`. -/
def compute_saturation_rate (organic_posts sponsored_posts : Option ℚ) : Option ℚ :=
  match sponsored_posts with
  | none => none
  | some s =>
    if s ≤ 0 then none
    else
      let o : ℚ :=
        match organic_posts with
        | none => 0
        | some o => if o < 0 then 0 else o
      some (o / s)

/-- `_content_balance_score_from_rate`: descending step table of the
saturation rate; no value below `0.2` or for an undefined rate. -/
def content_balance_score_from_rate (rate : Option ℚ) : Option ℚ :=
  match rate with
  | none => none
  | some r =>
    if 0.7 ≤ r then some 1
    else if 0.5 ≤ r then some 2
    else if 0.4 ≤ r then some 3
    else if 0.3 ≤ r then some 4
    else if 0.2 ≤ r then some 5
    else none

/-- Detail values flowing through `_normalize_detail_entry`: the scraped
string, a parsed number, or an opaque non-string structure (passed through). -/
inductive DetailValue where
  | vstr (s : String)
  | vnum (q : ℚ)
  | vother
deriving DecidableEq

/-- One `_trim_suffix` step: when the lower-cased text ends with `suffix`,
drop the suffix and strip again. -/
def trimOneSuffix (text : String) (suffix : String) : String :=
  if pyEndsWith (pyLower text) suffix then
    pyStrip (strDropRight text suffix.length)
  else text

/-- The two suffix trims `_normalize_detail_entry` applies to the stripped
value text, in order. -/
def trimValueSuffixes (text : String) : String :=
  trimOneSuffix (trimOneSuffix text (" followers")) (" engagement rate")

/-- The platform-prefix stripping of the column key: drop a leading
`Instagram` / `TikTok`, falling back to the platform name when the stripped
key would be empty. -/
def stripPlatformKey (detail_key : String) : String :=
  let ck := detail_key
  let ck := if pyStartsWith ck ("Instagram") then pyOrStr (pyStrip (pyReplace ck ("Instagram") (""))) ("Instagram") else ck
  let ck := if pyStartsWith ck ("TikTok") then pyOrStr (pyStrip (pyReplace ck ("TikTok") (""))) ("TikTok") else ck
  ck

/-- The final parsing step of `_normalize_detail_entry`: parse the value as
a compact number when the (lower-cased) corrected key mentions followers, as
a percentage when it mentions an engagement rate, otherwise keep the trimmed
text verbatim (also when the parser finds no numeric token). -/
def detailParsedValue (column_key text : String) : DetailValue :=
  let final_lowered_key := pyLower column_key
  let numeric_value : Option ℚ :=
    if strContains final_lowered_key ("followers") then parse_compact_number text
    else if strContains final_lowered_key ("engagement rate") then parse_percentage_value text
    else none
  match numeric_value with
  | some q => .vnum q
  | none => .vstr text

/-- `_normalize_detail_entry` from `src/app.py`: suffix-trim the string
value, strip the platform prefix from the key, apply the mislabel
correction, then parse the value according to the final key. -/
def normalize_detail_entry (detail_key : String) (value : DetailValue) : String × DetailValue :=
  match value with
  | .vstr s =>
    let text := pyStrip s
    let text := trimValueSuffixes text
    let lowered_value := pyLower text
    let lowered_key := pyLower detail_key
    let column_key := stripPlatformKey detail_key
    let corrected : String :=
      if strContains lowered_key ("followers")
          ∧ (strContains lowered_value ("%") ∨ strContains lowered_value ("engagement")) then
        pyOrStr (pyReplace column_key ("Followers") ("Engagement Rate")) ("Engagement Rate")
      else if strContains lowered_key ("engagement rate")
          ∧ (strContains lowered_value ("followers") ∧ ¬ strContains lowered_value ("%")) then
        pyOrStr (pyReplace column_key ("Engagement Rate") ("Followers")) ("Followers")
      else column_key
    ("Detail - " ++ corrected, detailParsedValue corrected text)
  | v => ("Detail - " ++ detail_key, v)

/-! ## Python dictionaries and `CreatorRecord.merged`

A Python dict is an association list with unique keys; assignment
`d[k] = v` replaces the binding in place or appends a fresh one. -/

/-- Python dict assignment `d[k] = v`. -/
def dictSet {α : Type} (d : List (String × α)) (k : String) (v : α) : List (String × α) :=
  if d.any (fun e => e.1 = k) then
    d.map (fun e => if e.1 = k then (k, v) else e)
  else d ++ [(k, v)]

/-- Lookup of a present key (`none` when the key is absent). -/
def dictFind? {α : Type} (d : List (String × α)) (k : String) : Option α :=
  match d.find? (fun e => e.1 = k) with
  | some e => some e.2
  | none => none

/-- Python `dict.get(k)`: `None` both for an absent key and for a key bound
to `None` (values are `Option β`, with `none` standing for Python `None`). -/
def pyDictGet {β : Type} (d : List (String × Option β)) (k : String) : Option β :=
  match dictFind? d k with
  | some v => v
  | none => none

/-- The keys of a dict are pairwise distinct. -/
def NodupKeys {α : Type} (d : List (String × α)) : Prop :=
  (d.map Prod.fst).Nodup

/-- The inner loop of `CreatorRecord.merged`: copy the non-`None` bindings of
`src` into the accumulating payload, in source order. -/
def mergedStep {β : Type} (payload : List (String × Option β)) :
    List (String × Option β) → List (String × Option β)
  | [] => payload
  | kv :: rest =>
    match kv.2 with
    | none => mergedStep payload rest
    | some v => mergedStep (dictSet payload kv.1 (some v)) rest

/-- `CreatorRecord.merged` from `truevibe/creatoriq.py`: start from an empty
payload, copy non-`None` bindings of `data`, then of `detail` (`detail or {}`
reads an absent detail dict as empty; `data or {}` is the identity on the
association-list model since the empty dict is the empty list). -/
def CreatorRecord.merged {β : Type} (data : List (String × Option β))
    (detail : Option (List (String × Option β))) : List (String × Option β) :=
  mergedStep (mergedStep [] data) (detail.getD [])

/-! ## `truevibe/database.py` (influencer and association tables)

The store is modelled as typed rows; `AUTOINCREMENT` ids are `length + 1`
(valid because this subsystem never deletes rows).  The demographics blob is
opaque to the store (`json.dumps` is modelled by the value itself), so the
model is parametric in its type `Demo`. -/

/-- One row of the `influencers` table. -/
structure InfluencerRow (Demo : Type) where
  id : Nat
  name : String
  handle : String
  platform : String
  follower_count : Option Int
  demographics_json : Demo
  last_seen_at : String
deriving DecidableEq

/-- The profile dictionary passed to `upsert_influencer`; `none` in `name?`
and `platform?` models an absent key (`profile.get` with a default). -/
structure Profile (Demo : Type) where
  name? : Option String
  handle : String
  platform? : Option String
  follower_count : Option Int
  demographics : Option Demo
deriving DecidableEq

/-- The dedup key: lower-cased stripped handle paired with the stripped platform, defaulting to Unknown. -/
def profileKey {Demo : Type} (p : Profile Demo) : String × String :=
  (pyLower (pyStrip p.handle), pyStrip (p.platform?.getD ("Unknown")))

/-- Does a row match a dedup key? -/
def rowMatches {Demo : Type} (key : String × String) (r : InfluencerRow Demo) : Prop :=
  r.handle = key.1 ∧ r.platform = key.2

instance {Demo : Type} (key : String × String) (r : InfluencerRow Demo) :
    Decidable (rowMatches key r) := by
  unfold rowMatches
  infer_instance

/-- `upsert_influencer`: `INSERT ... ON CONFLICT(handle, platform) DO UPDATE
SET name, follower_count, demographics_json, last_seen_at = excluded.*`,
followed by a `SELECT` of the stored row.  `demographics or {}` is
`getD empty` (the only falsy dict, `{}`, is its own default), and the name
defaults to the raw handle when the `name` key is absent. -/
def upsert_influencer {Demo : Type} (empty : Demo) (table : List (InfluencerRow Demo))
    (p : Profile Demo) (now : String) : List (InfluencerRow Demo) × InfluencerRow Demo :=
  let key := profileKey p
  let name := pyStrip (p.name?.getD p.handle)
  let demographics := p.demographics.getD empty
  match table.find? (fun r => decide (rowMatches key r)) with
  | some r0 =>
    let updated : InfluencerRow Demo :=
      { r0 with
        name := name
        follower_count := p.follower_count
        demographics_json := demographics
        last_seen_at := now }
    (table.map (fun r => if rowMatches key r then
        { r with
          name := name
          follower_count := p.follower_count
          demographics_json := demographics
          last_seen_at := now }
      else r),
     updated)
  | none =>
    let fresh : InfluencerRow Demo :=
      { id := table.length + 1
        name := name
        handle := key.1
        platform := key.2
        follower_count := p.follower_count
        demographics_json := demographics
        last_seen_at := now }
    (table ++ [fresh], fresh)

/-- One row of the `campaign_influencers` table (score columns omitted: they
are `NULL` at creation and only touched by the score save). -/
structure CampaignInfluencerRow where
  id : Nat
  campaign_id : Nat
  influencer_id : Nat
  created_at : String
  updated_at : String
deriving DecidableEq

/-- Does an association row match a `(campaign, influencer)` pair? -/
def assocMatches (campaign_id influencer_id : Nat) (a : CampaignInfluencerRow) : Prop :=
  a.campaign_id = campaign_id ∧ a.influencer_id = influencer_id

instance (campaign_id influencer_id : Nat) (a : CampaignInfluencerRow) :
    Decidable (assocMatches campaign_id influencer_id a) := by
  unfold assocMatches
  infer_instance

/-- `ensure_campaign_influencer`: `INSERT ... ON CONFLICT(campaign_id,
influencer_id) DO UPDATE SET updated_at = excluded.updated_at`, then a
`SELECT` of the association row. -/
def ensure_campaign_influencer (table : List CampaignInfluencerRow)
    (campaign_id influencer_id : Nat) (now : String) :
    List CampaignInfluencerRow × CampaignInfluencerRow :=
  match table.find? (fun a => decide (assocMatches campaign_id influencer_id a)) with
  | some a0 =>
    let updated := { a0 with updated_at := now }
    (table.map (fun a =>
        if assocMatches campaign_id influencer_id a then
          { a with updated_at := now }
        else a),
     updated)
  | none =>
    let fresh : CampaignInfluencerRow :=
      { id := table.length + 1
        campaign_id := campaign_id
        influencer_id := influencer_id
        created_at := now
        updated_at := now }
    (table ++ [fresh], fresh)

/-- One row of the `kol_sources` import log. -/
structure KolSourceRow where
  campaign_id : Nat
  publish_link : String
  platform : String
  status : String
  imported_ids : List Nat
deriving DecidableEq

/-- `add_kol_source`: upsert the import-log row keyed by
`(campaign_id, publish_link)`. -/
def add_kol_source (table : List KolSourceRow) (campaign_id : Nat)
    (publish_link platform status : String) (imported_ids : List Nat) : List KolSourceRow :=
  let fresh : KolSourceRow :=
    { campaign_id := campaign_id
      publish_link := pyStrip publish_link
      platform := platform
      status := status
      imported_ids := imported_ids }
  if table.any (fun s => s.campaign_id = campaign_id ∧ s.publish_link = pyStrip publish_link) then
    table.map (fun s =>
      if s.campaign_id = campaign_id ∧ s.publish_link = pyStrip publish_link then fresh else s)
  else table ++ [fresh]

/-! ## `truevibe/ingestion.py` -/

/-- One linked social account of a collection-API creator node. -/
structure Account where
  network : Option String
  followers : Option Int
  accountUrl : Option String
deriving DecidableEq

/-- A collection-API creator node, typed with the fields
`_normalize_creator_payload` reads.  The seven verbatim-copied demographic
fields (country, city, gender, language, tags, categories, subCategories)
are opaque to the pipeline and bundled as one `Demo` value. -/
structure Creator (Demo : Type) where
  listCreatorsId : Option String
  fullName : Option String
  primaryNetwork : Option String
  primarySocialUsername : Option String
  profilePictureURL : Option String
  totalSocialConnections : Option Int
  accounts : List Account
  demoFields : Demo
deriving DecidableEq

/-- The canonical profile `_normalize_creator_payload` produces. -/
structure NormalizedProfile (Demo : Type) where
  name : Option String
  handle : Option String
  platform : Option String
  follower_count : Option Int
  demographics : Demo
  profile_url : Option String
  profile_image : Option String
deriving DecidableEq

/-- `_normalize_creator_payload`: identity from the primary username with the
internal list id as fallback, follower count preferring the top-level
total-connections field over the first account's followers, demographics
copied verbatim.  (`CreatorRecord(data=creator, detail=None).merged()` only
drops `None`-valued keys, which `.get`-based reads cannot distinguish, so the
merge step is the identity on this typed record.) -/
def normalize_creator_payload {Demo : Type} (c : Creator Demo) : NormalizedProfile Demo :=
  let account_followers := (c.accounts.head?).bind Account.followers
  let account_network := (c.accounts.head?).bind Account.network
  let account_url := (c.accounts.head?).bind Account.accountUrl
  { name := pyOrS c.fullName c.primarySocialUsername
    handle := pyOrS c.primarySocialUsername c.listCreatorsId
    platform := pyOrS c.primaryNetwork account_network
    follower_count := pyOrI c.totalSocialConnections account_followers
    demographics := c.demoFields
    profile_url := account_url
    profile_image := c.profilePictureURL }

/-- The database state touched by an import. -/
structure DBState (Demo : Type) where
  influencers : List (InfluencerRow Demo)
  assocs : List CampaignInfluencerRow
  kolSources : List KolSourceRow

/-- The warning string appended for a record with an unusable handle. -/
def skipWarning : String :=
  "Skipped a creator because handle/username was missing."

/-- Is a creator record usable?  The loop's guard
`if not profile.get("handle")` reads the normalized handle's truthiness. -/
def usableCreator {Demo : Type} (c : Creator Demo) : Bool :=
  truthyS (normalize_creator_payload c).handle

/-- The profile dictionary the loop hands to `upsert_influencer`:
`name or handle`, the handle itself, `platform or "Unknown"`, the follower
count and the demographics. -/
def ingestProfile {Demo : Type} (c : Creator Demo) : Profile Demo :=
  let profile := normalize_creator_payload c
  { name? := pyOrS profile.name profile.handle
    handle := (profile.handle).getD ("")
    platform? := pyOrS profile.platform (some ("Unknown"))
    follower_count := profile.follower_count
    demographics := some profile.demographics }

/-- The body of one usable-record iteration: upsert the influencer, ensure
the campaign association, and return the new state with the association
id appended to the imported ids. -/
def ingestStep {Demo : Type} (empty : Demo) (campaign_id : Nat) (now : String)
    (c : Creator Demo) (st : DBState Demo) : DBState Demo × Nat :=
  let upres := upsert_influencer empty st.influencers (ingestProfile c) now
  let enres := ensure_campaign_influencer st.assocs campaign_id upres.2.id now
  ({ st with influencers := upres.1, assocs := enres.1 }, enres.2.id)

/-- The per-record loop of `ingest_creatoriq_report`: skip-and-warn on a
falsy handle, otherwise upsert the influencer and ensure the campaign
association, collecting the association ids. -/
def ingestLoop {Demo : Type} (empty : Demo) (campaign_id : Nat) (now : String) :
    List (Creator Demo) → DBState Demo → List Nat → List String →
    DBState Demo × List Nat × List String
  | [], st, imported_ids, warnings => (st, imported_ids, warnings)
  | c :: rest, st, imported_ids, warnings =>
    if usableCreator c then
      ingestLoop empty campaign_id now rest (ingestStep empty campaign_id now c st).1
        (imported_ids ++ [(ingestStep empty campaign_id now c st).2]) warnings
    else
      ingestLoop empty campaign_id now rest st imported_ids (warnings ++ [skipWarning])

/-- `ingest_creatoriq_report`, from the fetched creator list onward (the link
check, slug extraction, and GraphQL fetch are I/O on external collaborators;
all timestamps of one call are modelled by a single `now`).  Returns the new
state, the imported count, and the warnings. -/
def ingest_creatoriq_report {Demo : Type} (empty : Demo) (campaign_id : Nat)
    (publish_link : String) (creators : List (Creator Demo)) (st : DBState Demo)
    (now : String) : DBState Demo × Nat × List String :=
  let res := ingestLoop empty campaign_id now creators st [] []
  let st' := res.1
  let final : DBState Demo :=
    { st' with
      kolSources := add_kol_source st'.kolSources campaign_id publish_link
        ("CreatorIQ") ("imported") res.2.1 }
  (final, res.2.1.length, res.2.2)

/-! ## Helper lemmas: rounding and clamping bounds -/

theorem pyRoundInt_le {q : ℚ} {n : ℤ} (h : q ≤ (n : ℚ)) : pyRoundInt q ≤ n := by
  unfold pyRoundInt
  dsimp only
  have hfl : (⌊q⌋ : ℚ) ≤ q := Int.floor_le q
  split_ifs with h1 h2 h3
  · exact_mod_cast le_trans hfl h
  · have hq : (⌊q⌋ : ℚ) < q := by linarith
    have : ⌊q⌋ < n := by exact_mod_cast lt_of_lt_of_le hq h
    omega
  · exact_mod_cast le_trans hfl h
  · have hq : (⌊q⌋ : ℚ) < q := by linarith
    have : ⌊q⌋ < n := by exact_mod_cast lt_of_lt_of_le hq h
    omega

theorem le_pyRoundInt {q : ℚ} {n : ℤ} (h : (n : ℚ) ≤ q) : n ≤ pyRoundInt q := by
  unfold pyRoundInt
  dsimp only
  have hfl : n ≤ ⌊q⌋ := Int.le_floor.mpr h
  split_ifs <;> omega

theorem pyRound2_le {q : ℚ} {n : ℤ} (h : q ≤ (n : ℚ)) : pyRound2 q ≤ (n : ℚ) := by
  have h1 : q * 100 ≤ ((n * 100 : ℤ) : ℚ) := by push_cast; linarith
  have h2 := pyRoundInt_le h1
  unfold pyRound2
  rw [div_le_iff₀ (by norm_num : (0 : ℚ) < 100)]
  calc ((pyRoundInt (q * 100) : ℤ) : ℚ) ≤ ((n * 100 : ℤ) : ℚ) := by exact_mod_cast h2
    _ = (n : ℚ) * 100 := by push_cast; ring

theorem le_pyRound2 {q : ℚ} {n : ℤ} (h : (n : ℚ) ≤ q) : (n : ℚ) ≤ pyRound2 q := by
  have h1 : ((n * 100 : ℤ) : ℚ) ≤ q * 100 := by push_cast; linarith
  have h2 := le_pyRoundInt h1
  unfold pyRound2
  rw [le_div_iff₀ (by norm_num : (0 : ℚ) < 100)]
  calc (n : ℚ) * 100 = ((n * 100 : ℤ) : ℚ) := by push_cast; ring
    _ ≤ ((pyRoundInt (q * 100) : ℤ) : ℚ) := by exact_mod_cast h2

theorem clampScore_le (q : ℚ) : clampScore q ≤ 5 := by
  unfold clampScore
  exact max_le (by norm_num) (min_le_left _ _)

theorem le_clampScore (q : ℚ) : 1 ≤ clampScore q :=
  le_max_left _ _

theorem compute_content_score_two (o c : ℚ) :
    compute_content_score o c none = pyRound2 ((clampScore o + clampScore c) / 2) := by
  simp [compute_content_score, pyAverage]

theorem compute_content_score_bounds (o c : ℚ) :
    1 ≤ compute_content_score o c none ∧ compute_content_score o c none ≤ 5 := by
  rw [compute_content_score_two]
  have h1 := le_clampScore o
  have h2 := le_clampScore c
  have h3 := clampScore_le o
  have h4 := clampScore_le c
  constructor
  · have := le_pyRound2 (n := 1) (q := (clampScore o + clampScore c) / 2) (by push_cast; linarith)
    exact_mod_cast this
  · have := pyRound2_le (n := 5) (q := (clampScore o + clampScore c) / 2) (by push_cast; linarith)
    exact_mod_cast this

theorem compute_authority_score_single (a : ℚ) :
    compute_authority_score [some a] = pyRound2 (clampScore a) := by
  simp [compute_authority_score]

theorem compute_values_score_single (v : ℚ) :
    compute_values_score [some v] = pyRound2 (clampScore v) := by
  simp [compute_values_score]

theorem pyRound2_clamp_bounds (a : ℚ) :
    1 ≤ pyRound2 (clampScore a) ∧ pyRound2 (clampScore a) ≤ 5 := by
  constructor
  · have := le_pyRound2 (n := 1) (q := clampScore a) (by exact_mod_cast le_clampScore a)
    exact_mod_cast this
  · have := pyRound2_le (n := 5) (q := clampScore a) (by exact_mod_cast clampScore_le a)
    exact_mod_cast this

/-! ## Claim C2 -/

/-- C2: the score payload built by `build_score_payload` carries the six
sub-scores, the engagement rate, the total and the trimmed notes — but none
of the saturation inputs the specification promises: `content_balance`,
`organic_posts_l2m`, `sponsored_posts_l2m` and `saturation_rate` are absent
from the payload even though `save_campaign_influencer_scores` overwrites
those `SCORE_COLUMNS` with `payload.get(column)` (writing `NULL`), and the
form submission in `render_scoring_form` passes exactly those four keyword
arguments that `build_score_payload`'s keyword-only signature rejects, so the
save raises `TypeError`.  This certifies the code bug behind the claim. -/
theorem C2_payload_lacks_saturation_inputs :
    (∀ (r i er e o c a v : ℚ) (notes : String),
      (build_score_payload r i er e o c a v notes).map Prod.fst =
        ["reach_score", "interest_score", "engagement_rate", "engagement_score",
         "content_originality", "content_creativity", "content_score",
         "authority_score", "values_score", "total_score", "qualitative_notes"]
      ∧ payloadGet (build_score_payload r i er e o c a v notes) "content_balance" = none
      ∧ payloadGet (build_score_payload r i er e o c a v notes) "organic_posts_l2m" = none
      ∧ payloadGet (build_score_payload r i er e o c a v notes) "sponsored_posts_l2m" = none
      ∧ payloadGet (build_score_payload r i er e o c a v notes) "saturation_rate" = none)
    ∧ ("content_balance" ∈ SCORE_COLUMNS ∧ "organic_posts_l2m" ∈ SCORE_COLUMNS
       ∧ "sponsored_posts_l2m" ∈ SCORE_COLUMNS ∧ "saturation_rate" ∈ SCORE_COLUMNS)
    ∧ render_scoring_form_call_keywords.filter
        (fun k => !build_score_payload_params.contains k) =
      ["content_balance_score", "organic_posts_l2m", "sponsored_posts_l2m",
       "saturation_rate"] := by
  refine ⟨fun r i er e o c a v notes => ⟨rfl, rfl, rfl, rfl, rfl⟩, by decide, by decide⟩

/-! ## Claim C3 -/

/-- C3 counterexample: with reach input `1.001` (and every other input `1`),
the stored `total_score` is the rounded `6.0`, while the claimed sum of the
clamped quantitative scores and the qualitative scores is `6.001` — so
`total_score` does not equal that sum. -/
theorem C3_total_rounding_counterexample :
    payloadGet (build_score_payload (1001/1000) 1 1 1 1 1 1 1 ("")) "total_score"
      = some (.num 6)
    ∧ clampScore (1001/1000) + clampScore 1 + clampScore 1
        + compute_content_score 1 1 none + compute_authority_score [some 1]
        + compute_values_score [some 1] = 6001/1000
    ∧ (6 : ℚ) ≠ 6001/1000 := by
  have heval : compute_total_score (1001/1000) 1 1 (compute_content_score 1 1 none)
      (compute_authority_score [some 1]) (compute_values_score [some 1]) = 6 := by
    rw [compute_content_score_two, compute_authority_score_single, compute_values_score_single]
    unfold compute_total_score clampScore pyRound2 pyRoundInt
    norm_num
  refine ⟨?_, ?_, by norm_num⟩
  · have h : payloadGet (build_score_payload (1001/1000) 1 1 1 1 1 1 1 ("")) "total_score"
        = some (.num (compute_total_score (1001/1000) 1 1 (compute_content_score 1 1 none)
            (compute_authority_score [some 1]) (compute_values_score [some 1]))) := rfl
    rw [h, heval]
  · rw [compute_content_score_two, compute_authority_score_single, compute_values_score_single]
    unfold clampScore pyRound2 pyRoundInt
    norm_num

/-- C3 (amended): `total_score` equals the sum of the clamped-to-`[1,5]`
reach, interest and engagement scores plus the content, authority and values
scores **rounded to two decimals**; it always lies in `[6.0, 30.0]`;
all-minimum inputs give exactly `6.0` and all-maximum inputs exactly
`30.0`. -/
theorem C3_total_score_bounds :
    (∀ (r i er e o c a v : ℚ) (notes : String),
      payloadGet (build_score_payload r i er e o c a v notes) "total_score" =
        some (.num (pyRound2 (clampScore r + clampScore i + clampScore e
          + compute_content_score o c none + compute_authority_score [some a]
          + compute_values_score [some v])))
      ∧ 6 ≤ compute_total_score r i e (compute_content_score o c none)
          (compute_authority_score [some a]) (compute_values_score [some v])
      ∧ compute_total_score r i e (compute_content_score o c none)
          (compute_authority_score [some a]) (compute_values_score [some v]) ≤ 30)
    ∧ compute_total_score 1 1 1 (compute_content_score 1 1 none)
        (compute_authority_score [some 1]) (compute_values_score [some 1]) = 6
    ∧ compute_total_score 5 5 5 (compute_content_score 5 5 none)
        (compute_authority_score [some 5]) (compute_values_score [some 5]) = 30 := by
  refine ⟨fun r i er e o c a v notes => ⟨rfl, ?_, ?_⟩, ?_, ?_⟩
  · have hr := le_clampScore r
    have hi := le_clampScore i
    have he := le_clampScore e
    have hc := (compute_content_score_bounds o c).1
    have ha := (pyRound2_clamp_bounds a).1
    have hv := (pyRound2_clamp_bounds v).1
    unfold compute_total_score
    rw [compute_authority_score_single, compute_values_score_single]
    have h6 := le_pyRound2 (n := 6) (q := clampScore r + clampScore i + clampScore e
      + compute_content_score o c none + pyRound2 (clampScore a) + pyRound2 (clampScore v))
      (by push_cast; linarith)
    exact_mod_cast h6
  · have hr := clampScore_le r
    have hi := clampScore_le i
    have he := clampScore_le e
    have hc := (compute_content_score_bounds o c).2
    have ha := (pyRound2_clamp_bounds a).2
    have hv := (pyRound2_clamp_bounds v).2
    unfold compute_total_score
    rw [compute_authority_score_single, compute_values_score_single]
    have h30 := pyRound2_le (n := 30) (q := clampScore r + clampScore i + clampScore e
      + compute_content_score o c none + pyRound2 (clampScore a) + pyRound2 (clampScore v))
      (by push_cast; linarith)
    exact_mod_cast h30
  · rw [compute_content_score_two, compute_authority_score_single, compute_values_score_single]
    unfold compute_total_score clampScore pyRound2 pyRoundInt
    norm_num
  · rw [compute_content_score_two, compute_authority_score_single, compute_values_score_single]
    unfold compute_total_score clampScore pyRound2 pyRoundInt
    norm_num

/-! ## Claim C4 -/

/-- C4: the saturation rate is defined exactly when the sponsored count is
positive, in which case it is the (negative-clamped) organic count divided by
the sponsored count; the content-balance score is the descending step table
of the rate, absent below `0.2` or for an undefined rate. -/
theorem C4_saturation_and_balance (o s r : ℚ) :
    ((compute_saturation_rate (some o) (some s)).isSome ↔ 0 < s)
    ∧ (0 < s → compute_saturation_rate (some o) (some s) = some (max o 0 / s))
    ∧ content_balance_score_from_rate none = none
    ∧ (0.7 ≤ r → content_balance_score_from_rate (some r) = some 1)
    ∧ (0.5 ≤ r → r < 0.7 → content_balance_score_from_rate (some r) = some 2)
    ∧ (0.4 ≤ r → r < 0.5 → content_balance_score_from_rate (some r) = some 3)
    ∧ (0.3 ≤ r → r < 0.4 → content_balance_score_from_rate (some r) = some 4)
    ∧ (0.2 ≤ r → r < 0.3 → content_balance_score_from_rate (some r) = some 5)
    ∧ (r < 0.2 → content_balance_score_from_rate (some r) = none) := by
  refine ⟨?_, ?_, rfl, ?_, ?_, ?_, ?_, ?_, ?_⟩
  · simp only [compute_saturation_rate]
    constructor
    · intro hsome
      by_contra hns
      rw [if_pos (by linarith : s ≤ 0)] at hsome
      simp at hsome
    · intro hs
      rw [if_neg (by linarith : ¬ s ≤ 0)]
      simp
  · intro hs
    simp only [compute_saturation_rate]
    rw [if_neg (by linarith : ¬ s ≤ 0)]
    rcases le_or_lt 0 o with ho | ho
    · rw [if_neg (by linarith : ¬ o < 0), max_eq_left ho]
    · rw [if_pos ho, max_eq_right (le_of_lt ho)]
  · intro h1
    simp only [content_balance_score_from_rate]
    rw [if_pos h1]
  · intro h1 h2
    simp only [content_balance_score_from_rate]
    rw [if_neg (by linarith), if_pos h1]
  · intro h1 h2
    simp only [content_balance_score_from_rate]
    rw [if_neg (by linarith), if_neg (by linarith), if_pos h1]
  · intro h1 h2
    simp only [content_balance_score_from_rate]
    rw [if_neg (by linarith), if_neg (by linarith), if_neg (by linarith), if_pos h1]
  · intro h1 h2
    simp only [content_balance_score_from_rate]
    rw [if_neg (by linarith), if_neg (by linarith), if_neg (by linarith),
      if_neg (by linarith), if_pos h1]
  · intro h1
    simp only [content_balance_score_from_rate]
    rw [if_neg (by linarith), if_neg (by linarith), if_neg (by linarith),
      if_neg (by linarith), if_neg (by linarith)]

/-- C4 witness: the spec's own examples — organic `1` over sponsored `4`
gives rate `0.25`, rate `1/4` gives balance `5.0`, rate `0.8` gives `1.0`,
rate `0.1` gives no balance, and sponsored `0` leaves the rate undefined. -/
theorem C4_saturation_and_balance_witness :
    compute_saturation_rate (some 1) (some 4) = some (1/4)
    ∧ content_balance_score_from_rate (some (1/4)) = some 5
    ∧ content_balance_score_from_rate (some (4/5)) = some 1
    ∧ content_balance_score_from_rate (some (1/10)) = none
    ∧ (compute_saturation_rate (some 3) (some 0)).isSome = false := by
  refine ⟨?_, ?_, ?_, ?_, ?_⟩
  · have h := (C4_saturation_and_balance 1 4 0).2.1 (by norm_num)
    rw [h]; norm_num
  · exact (C4_saturation_and_balance 0 1 (1/4)).2.2.2.2.2.2.2.1 (by norm_num) (by norm_num)
  · exact (C4_saturation_and_balance 0 1 (4/5)).2.2.2.1 (by norm_num)
  · exact (C4_saturation_and_balance 0 1 (1/10)).2.2.2.2.2.2.2.2 (by norm_num)
  · have h := (C4_saturation_and_balance 3 0 0).1
    rw [Bool.eq_false_iff]
    intro hc
    exact absurd (h.mp hc) (by norm_num)

/-! ## Claim C6 -/

/-- C6: the engagement rate is extracted from whichever of the three detail
keys — Instagram Engagement Rate, TikTok Engagement Rate, Engagement Rate —
yields a parseable percentage first, in exactly that priority order, and is
`0.0` when none is present or parseable (or the details are not a dict). -/
theorem C6_engagement_rate_priority (d : DetailsDict) (r : ℚ) :
    extract_engagement_rate none = 0
    ∧ (parse_percentage (pyGetS d ("Instagram Engagement Rate")) = some r →
        extract_engagement_rate (some d) = r)
    ∧ (parse_percentage (pyGetS d ("Instagram Engagement Rate")) = none →
        parse_percentage (pyGetS d ("TikTok Engagement Rate")) = some r →
        extract_engagement_rate (some d) = r)
    ∧ (parse_percentage (pyGetS d ("Instagram Engagement Rate")) = none →
        parse_percentage (pyGetS d ("TikTok Engagement Rate")) = none →
        parse_percentage (pyGetS d ("Engagement Rate")) = some r →
        extract_engagement_rate (some d) = r)
    ∧ (parse_percentage (pyGetS d ("Instagram Engagement Rate")) = none →
        parse_percentage (pyGetS d ("TikTok Engagement Rate")) = none →
        parse_percentage (pyGetS d ("Engagement Rate")) = none →
        extract_engagement_rate (some d) = 0) := by
  refine ⟨rfl, ?_, ?_, ?_, ?_⟩
  · intro h1
    simp only [extract_engagement_rate, h1]
  · intro h1 h2
    simp only [extract_engagement_rate, h1, h2]
  · intro h1 h2 h3
    simp only [extract_engagement_rate, h1, h2, h3]
  · intro h1 h2 h3
    simp only [extract_engagement_rate, h1, h2, h3]

/-- C6 witness: a details dict carrying only a TikTok rate of `4.56%` — the
Instagram key is absent, so the TikTok key provides the rate. -/
theorem C6_engagement_rate_priority_witness :
    extract_engagement_rate (some [(("TikTok Engagement Rate" : String), some ("4.56%"))])
      = 114/25 := by
  have hg1 : pyGetS [(("TikTok Engagement Rate" : String), some ("4.56%"))]
      ("Instagram Engagement Rate") = none := by decide
  have hg2 : pyGetS [(("TikTok Engagement Rate" : String), some ("4.56%"))]
      ("TikTok Engagement Rate") = some ("4.56%") := by decide
  have h1 : parse_percentage (pyGetS [(("TikTok Engagement Rate" : String), some ("4.56%"))]
      ("Instagram Engagement Rate")) = none := by
    rw [hg1]
    rfl
  have h2 : parse_percentage (pyGetS [(("TikTok Engagement Rate" : String), some ("4.56%"))]
      ("TikTok Engagement Rate")) = some (114/25) := by
    rw [hg2]
    have hd : ("4.56%" : String).data = ['4', '.', '5', '6', '%'] := rfl
    have hne : ("4.56%" : String).isEmpty = false := by decide
    simp [parse_percentage, hd, hne, pctSearch, pctMatchAt, startsWithPctAfterWs,
      digitsVal, fracVal]
    norm_num
  exact (C6_engagement_rate_priority _ _).2.2.1 h1 h2

/-! ## Claim C1 -/

/-- C1 counterexample: upserting a profile with `follower_count = None` over
a stored record holding `follower_count = 5000` stores `NULL` — the
`ON CONFLICT` update writes `excluded.follower_count` unconditionally, so the
null does overwrite and `5000` is lost. -/
theorem C1_null_overwrite_counterexample :
    ((upsert_influencer () [⟨1, ("Alice"), ("alice"), ("Instagram"), some 5000, (), ("t0")⟩]
        ⟨some ("Alice"), ("alice"), some ("Instagram"), none, some ()⟩ ("t1")).1.map
      (fun r => r.follower_count)) = [none]
    ∧ ([none] : List (Option Int)) ≠ [some 5000] :=
  ⟨by decide, by decide⟩

/-- Any row of an upsert result that matches the incoming dedup key carries
exactly the incoming field values and the new timestamp. -/
theorem upsert_fields_of_match {Demo : Type} (empty : Demo)
    (table : List (InfluencerRow Demo)) (p : Profile Demo) (now : String)
    (r' : InfluencerRow Demo)
    (hmem : r' ∈ (upsert_influencer empty table p now).1)
    (hkey : rowMatches (profileKey p) r') :
    r'.name = pyStrip (p.name?.getD p.handle)
    ∧ r'.follower_count = p.follower_count
    ∧ r'.demographics_json = p.demographics.getD empty
    ∧ r'.last_seen_at = now := by
  unfold upsert_influencer at hmem
  dsimp only at hmem
  rcases hfind : table.find? (fun r => decide (rowMatches (profileKey p) r)) with _ | r0
  · rw [hfind] at hmem
    dsimp only at hmem
    rcases List.mem_append.mp hmem with hin | hin
    · exfalso
      have hnone := List.find?_eq_none.mp hfind r' hin
      simp only [decide_eq_true_eq] at hnone
      exact hnone hkey
    · have heq := List.mem_singleton.mp hin
      subst heq
      exact ⟨rfl, rfl, rfl, rfl⟩
  · rw [hfind] at hmem
    dsimp only at hmem
    rcases List.mem_map.mp hmem with ⟨r, hr, heq⟩
    by_cases hm : rowMatches (profileKey p) r
    · rw [if_pos hm] at heq
      subst heq
      exact ⟨rfl, rfl, rfl, rfl⟩
    · rw [if_neg hm] at heq
      subst heq
      exact absurd hkey hm

/-- C1 (amended): on every upsert the stored `name`, `follower_count` and
`demographics` of the record at the incoming key are replaced by the incoming
values unconditionally — an incoming null `follower_count` overwrites a
stored value (nulls are not preserved) — and `last_seen` always advances to
now. -/
theorem C1_upsert_overwrites {Demo : Type} (empty : Demo)
    (table : List (InfluencerRow Demo)) (p : Profile Demo) (now : String)
    (r' : InfluencerRow Demo)
    (hmem : r' ∈ (upsert_influencer empty table p now).1)
    (hkey : rowMatches (profileKey p) r') :
    r'.name = pyStrip (p.name?.getD p.handle)
    ∧ r'.follower_count = p.follower_count
    ∧ r'.demographics_json = p.demographics.getD empty
    ∧ r'.last_seen_at = now :=
  upsert_fields_of_match empty table p now r' hmem hkey

/-- C1 witness: a concrete upsert over an existing row — the stored fields
become exactly the incoming ones and `last_seen` becomes the new
timestamp. -/
theorem C1_upsert_overwrites_witness :
    (⟨1, ("Alice"), ("alice"), ("Instagram"), none, (), ("t1")⟩ : InfluencerRow Unit).name
        = pyStrip ((some ("Alice")).getD ("alice"))
    ∧ (⟨1, ("Alice"), ("alice"), ("Instagram"), none, (), ("t1")⟩ : InfluencerRow Unit).follower_count
        = none
    ∧ (⟨1, ("Alice"), ("alice"), ("Instagram"), none, (), ("t1")⟩ : InfluencerRow Unit).demographics_json
        = (some ()).getD ()
    ∧ (⟨1, ("Alice"), ("alice"), ("Instagram"), none, (), ("t1")⟩ : InfluencerRow Unit).last_seen_at
        = ("t1") :=
  C1_upsert_overwrites () [⟨1, ("Alice"), ("alice"), ("Instagram"), some 5000, (), ("t0")⟩]
    ⟨some ("Alice"), ("alice"), some ("Instagram"), none, some ()⟩ ("t1")
    ⟨1, ("Alice"), ("alice"), ("Instagram"), none, (), ("t1")⟩
    (by decide) (by decide)

/-! ## Claim C9 -/

/-- Number of stored rows carrying a given dedup key. -/
def countKey {Demo : Type} (table : List (InfluencerRow Demo)) (key : String × String) : Nat :=
  (table.filter (fun r => decide (rowMatches key r))).length

theorem countKey_map_upd {Demo : Type} (table : List (InfluencerRow Demo))
    (key : String × String) (nm : String) (fc : Option Int) (dm : Demo) (ls : String) :
    countKey (table.map (fun r => if rowMatches key r then
      { r with
        name := nm
        follower_count := fc
        demographics_json := dm
        last_seen_at := ls } else r)) key
    = countKey table key := by
  unfold countKey
  rw [List.filter_map, List.length_map]
  congr 1
  apply List.filter_congr
  intro r _
  by_cases hm : rowMatches key r
  · simp only [Function.comp_apply, if_pos hm]
    have h2 : rowMatches key { r with
      name := nm
      follower_count := fc
      demographics_json := dm
      last_seen_at := ls } := hm
    rw [decide_eq_true h2, decide_eq_true hm]
  · simp only [Function.comp_apply, if_neg hm]

theorem countKey_upsert {Demo : Type} (empty : Demo) (table : List (InfluencerRow Demo))
    (p : Profile Demo) (now : String) :
    countKey (upsert_influencer empty table p now).1 (profileKey p)
      = if countKey table (profileKey p) = 0 then 1
        else countKey table (profileKey p) := by
  unfold upsert_influencer
  dsimp only
  rcases hfind : table.find? (fun r => decide (rowMatches (profileKey p) r)) with _ | r0
  · dsimp only
    have h0 : table.filter (fun r => decide (rowMatches (profileKey p) r)) = [] := by
      rw [List.filter_eq_nil_iff]
      intro r hr
      simpa using List.find?_eq_none.mp hfind r hr
    have hc0 : countKey table (profileKey p) = 0 := by
      unfold countKey
      rw [h0]
      rfl
    rw [hc0, if_pos rfl]
    unfold countKey
    rw [List.filter_append, h0]
    simp [rowMatches]
  · dsimp only
    rw [countKey_map_upd]
    have hr0 := List.mem_of_find?_eq_some hfind
    have hp := List.find?_some hfind
    have hmemf : r0 ∈ table.filter (fun r => decide (rowMatches (profileKey p) r)) :=
      List.mem_filter.mpr ⟨hr0, hp⟩
    have hpos : countKey table (profileKey p) ≠ 0 := by
      unfold countKey
      intro hlen
      rw [List.length_eq_zero] at hlen
      rw [hlen] at hmemf
      exact absurd hmemf (List.not_mem_nil _)
    rw [if_neg hpos]

theorem upsert_into_matched {Demo : Type} (empty : Demo)
    (table : List (InfluencerRow Demo)) (p : Profile Demo) (now : String)
    (hfields : ∀ r ∈ table, rowMatches (profileKey p) r →
      r.name = pyStrip (p.name?.getD p.handle)
      ∧ r.follower_count = p.follower_count
      ∧ r.demographics_json = p.demographics.getD empty)
    (hpos : countKey table (profileKey p) ≠ 0) :
    (upsert_influencer empty table p now).1
      = table.map (fun r => if rowMatches (profileKey p) r then
          { r with last_seen_at := now } else r) := by
  unfold upsert_influencer
  dsimp only
  rcases hfind : table.find? (fun r => decide (rowMatches (profileKey p) r)) with _ | r0
  · exfalso
    apply hpos
    unfold countKey
    rw [List.length_eq_zero, List.filter_eq_nil_iff]
    intro r hr
    simpa using List.find?_eq_none.mp hfind r hr
  · dsimp only
    apply List.map_congr_left
    intro r hr
    by_cases hm : rowMatches (profileKey p) r
    · rw [if_pos hm, if_pos hm]
      obtain ⟨h1, h2, h3⟩ := hfields r hr hm
      cases r
      simp_all
    · rw [if_neg hm, if_neg hm]

/-- C9: upserting the same profile twice (identical data) leaves exactly one
stored record at its `(handle, platform)` key — assuming the store satisfies
the schema's UNIQUE constraint — and the second upsert changes nothing except
the `last_seen` timestamp. -/
theorem C9_upsert_idempotent {Demo : Type} (empty : Demo)
    (table : List (InfluencerRow Demo)) (p : Profile Demo) (now1 now2 : String)
    (h : countKey table (profileKey p) ≤ 1) :
    countKey (upsert_influencer empty
        (upsert_influencer empty table p now1).1 p now2).1 (profileKey p) = 1
    ∧ (upsert_influencer empty (upsert_influencer empty table p now1).1 p now2).1
      = ((upsert_influencer empty table p now1).1).map
          (fun r => if rowMatches (profileKey p) r then
            { r with last_seen_at := now2 } else r) := by
  have hc1 : countKey (upsert_influencer empty table p now1).1 (profileKey p) = 1 := by
    rw [countKey_upsert]
    rcases Nat.eq_zero_or_pos (countKey table (profileKey p)) with h0 | hp
    · rw [if_pos h0]
    · rw [if_neg (by omega)]
      omega
  constructor
  · rw [countKey_upsert, hc1]
    norm_num
  · apply upsert_into_matched
    · intro r hr hm
      obtain ⟨h1, h2, h3, _⟩ := upsert_fields_of_match empty table p now1 r hr hm
      exact ⟨h1, h2, h3⟩
    · rw [hc1]
      norm_num

/-- C9 witness: upserting the same profile twice into an empty store yields a
single record, and the second upsert only advances the timestamp. -/
theorem C9_upsert_idempotent_witness :
    countKey (upsert_influencer ()
        (upsert_influencer () ([] : List (InfluencerRow Unit))
          ⟨some ("Bob"), ("bob"), some ("TikTok"), some 7, some ()⟩ ("t1")).1
        ⟨some ("Bob"), ("bob"), some ("TikTok"), some 7, some ()⟩ ("t2")).1
      (profileKey ⟨some ("Bob"), ("bob"), some ("TikTok"), some 7, some ()⟩) = 1
    ∧ (upsert_influencer ()
        (upsert_influencer () ([] : List (InfluencerRow Unit))
          ⟨some ("Bob"), ("bob"), some ("TikTok"), some 7, some ()⟩ ("t1")).1
        ⟨some ("Bob"), ("bob"), some ("TikTok"), some 7, some ()⟩ ("t2")).1
      = ((upsert_influencer () ([] : List (InfluencerRow Unit))
          ⟨some ("Bob"), ("bob"), some ("TikTok"), some 7, some ()⟩ ("t1")).1).map
          (fun r => if rowMatches
              (profileKey (⟨some ("Bob"), ("bob"), some ("TikTok"), some 7, some ()⟩ : Profile Unit)) r
            then { r with last_seen_at := ("t2") } else r) :=
  C9_upsert_idempotent () []
    ⟨some ("Bob"), ("bob"), some ("TikTok"), some 7, some ()⟩ ("t1") ("t2") (by decide)

/-! ## Claim C10 -/

theorem find?_congr_pred {α : Type} (p q : α → Bool) (l : List α) (h : ∀ a, p a = q a) :
    l.find? p = l.find? q := by
  induction l with
  | nil => rfl
  | cons a t ih =>
    rw [List.find?_cons, List.find?_cons, h a, ih]

theorem dictFind?_dictSet {α : Type} (d : List (String × α)) (k : String) (v : α) (k' : String) :
    dictFind? (dictSet d k v) k' = if k' = k then some v else dictFind? d k' := by
  unfold dictSet dictFind?
  by_cases hany : d.any (fun e => e.1 = k)
  · rw [if_pos hany]
    rw [List.find?_map]
    by_cases hk : k' = k
    · subst hk
      rw [if_pos rfl]
      have hpred : ∀ e : String × α,
          ((fun e : String × α => decide (e.1 = k')) ∘ (fun e => if e.1 = k' then (k', v) else e)) e
            = (fun e : String × α => decide (e.1 = k')) e := by
        intro e
        simp only [Function.comp_apply]
        by_cases he : e.1 = k'
        · rw [if_pos he]
          simp [he]
        · rw [if_neg he]
      rw [find?_congr_pred _ _ d hpred]
      rcases hf : d.find? (fun e : String × α => decide (e.1 = k')) with _ | e0
      · exfalso
        rw [List.any_eq_true] at hany
        obtain ⟨e, he, hpe⟩ := hany
        have hno := List.find?_eq_none.mp hf e he
        simp only [decide_eq_true_eq] at hno hpe
        exact hno hpe
      · have hpe := List.find?_some hf
        simp only [decide_eq_true_eq] at hpe
        dsimp only [Option.map]
        rw [if_pos hpe]
    · rw [if_neg hk]
      have hpred : ∀ e : String × α,
          ((fun e : String × α => decide (e.1 = k')) ∘ (fun e => if e.1 = k then (k, v) else e)) e
            = (fun e : String × α => decide (e.1 = k')) e := by
        intro e
        simp only [Function.comp_apply]
        by_cases he : e.1 = k
        · rw [if_pos he]
          simp only [decide_eq_decide]
          constructor
          · intro hkk
            exact absurd hkk.symm hk
          · intro hek
            rw [he] at hek
            exact absurd hek.symm hk
        · rw [if_neg he]
      rw [find?_congr_pred _ _ d hpred]
      rcases hf : d.find? (fun e : String × α => decide (e.1 = k')) with _ | e0
      · rfl
      · have hpe := List.find?_some hf
        simp only [decide_eq_true_eq] at hpe
        dsimp only [Option.map]
        rw [if_neg (show ¬ e0.1 = k from fun h => hk (hpe.symm.trans h))]
  · rw [if_neg hany]
    rw [List.find?_append]
    by_cases hk : k' = k
    · subst hk
      have h0 : d.find? (fun e : String × α => decide (e.1 = k')) = none := by
        rw [List.find?_eq_none]
        intro e he hpe
        apply hany
        rw [List.any_eq_true]
        exact ⟨e, he, by simpa using hpe⟩
      rw [h0, if_pos rfl]
      simp [List.find?_cons]
    · rw [if_neg hk]
      rcases hf : d.find? (fun e : String × α => decide (e.1 = k')) with _ | e0
      · simp only [Option.none_or]
        rw [List.find?_cons]
        have : (decide ((k, v).1 = k')) = false := by
          simp only [decide_eq_false_iff_not]
          exact fun h => hk h.symm
        rw [this]
        rfl
      · rfl


theorem dictFind?_mergedStep {β : Type} (src : List (String × Option β)) (k : String)
    (hnd : (src.map Prod.fst).Nodup) :
    ∀ payload : List (String × Option β),
    dictFind? (mergedStep payload src) k =
      match src.find? (fun e => decide (e.1 = k)) with
      | some e =>
        match e.2 with
        | some v => some (some v)
        | none => dictFind? payload k
      | none => dictFind? payload k := by
  induction src with
  | nil => intro payload; rfl
  | cons e t ih =>
    intro payload
    have hnd' : (t.map Prod.fst).Nodup := (List.nodup_cons.mp hnd).2
    have hknot : e.1 ∉ t.map Prod.fst := (List.nodup_cons.mp hnd).1
    rcases e with ⟨k0, v0⟩
    have htnone : k0 = k → t.find? (fun e => decide (e.1 = k)) = none := by
      intro hk
      rw [List.find?_eq_none]
      intro e2 he2 hpe2
      simp only [decide_eq_true_eq] at hpe2
      apply hknot
      rw [show ((k0, v0).1 : String) = k from hk, ← hpe2]
      exact List.mem_map_of_mem Prod.fst he2
    rcases v0 with _ | v0
    · show dictFind? (mergedStep payload t) k = _
      rw [ih hnd' payload]
      rw [List.find?_cons]
      by_cases hk : k0 = k
      · have hdec : (decide ((k0, (none : Option β)).1 = k)) = true := by simpa using hk
        rw [hdec, htnone hk]
      · have hdec : (decide ((k0, (none : Option β)).1 = k)) = false := by simpa using hk
        rw [hdec]
    · show dictFind? (mergedStep (dictSet payload k0 (some v0)) t) k = _
      rw [ih hnd' (dictSet payload k0 (some v0))]
      rw [List.find?_cons]
      by_cases hk : k0 = k
      · have hdec : (decide ((k0, some v0).1 = k)) = true := by simpa using hk
        rw [hdec, htnone hk]
        dsimp only
        rw [dictFind?_dictSet, if_pos hk.symm]
      · have hdec : (decide ((k0, some v0).1 = k)) = false := by simpa using hk
        rw [hdec]
        rcases hf : t.find? (fun e => decide (e.1 = k)) with _ | e2
        · rw [hf]
          dsimp only
          rw [dictFind?_dictSet, if_neg (fun h => hk h.symm)]
        · rw [hf]
          rcases e2 with ⟨k2, v2⟩
          rcases v2 with _ | v2
          · dsimp only
            rw [dictFind?_dictSet, if_neg (fun h => hk h.symm)]
          · rfl

/-- C10: `CreatorRecord.merged` maps each key to the per-creator detail
value when that value is non-`None`, otherwise to the base-data value when
that is non-`None`, and omits keys that are `None` in both — so a detail
record can never erase a base field with a null.  (`dictFind?` returning
`none` means the key is absent from the payload; dict keys are unique, as in
Python.) -/
theorem C10_merged {β : Type} (data : List (String × Option β))
    (detail : Option (List (String × Option β))) (k : String)
    (h1 : NodupKeys data) (h2 : NodupKeys (detail.getD [])) :
    dictFind? (CreatorRecord.merged data detail) k =
      match pyDictGet (detail.getD []) k with
      | some v => some (some v)
      | none =>
        match pyDictGet data k with
        | some v => some (some v)
        | none => none := by
  unfold CreatorRecord.merged
  rw [dictFind?_mergedStep _ _ h2, dictFind?_mergedStep _ _ h1]
  rcases hfd : (detail.getD []).find? (fun e => decide (e.1 = k)) with _ | e
  · rcases hfd2 : data.find? (fun e => decide (e.1 = k)) with _ | e2
    · simp only [pyDictGet, dictFind?, hfd, hfd2]
      rfl
    · simp only [pyDictGet, dictFind?, hfd, hfd2]
      rcases e2 with ⟨k2, v2⟩
      rcases v2 with _ | v2
      · rfl
      · rfl
  · rcases hfd2 : data.find? (fun e => decide (e.1 = k)) with _ | e2
    · simp only [pyDictGet, dictFind?, hfd, hfd2]
      rcases e with ⟨k1, v1⟩
      rcases v1 with _ | v1
      · rfl
      · rfl
    · simp only [pyDictGet, dictFind?, hfd, hfd2]
      rcases e with ⟨k1, v1⟩
      rcases e2 with ⟨k2, v2⟩
      rcases v1 with _ | v1
      · rcases v2 with _ | v2
        · rfl
        · rfl
      · rfl

/-- C10 witness: with base data mapping `a` to `1`, `b` to `None` and `c` to
`3`, and a detail record mapping `b` to `2` and `c` to `None`, the merged
payload reads `b` from the detail, keeps `c` from the base (the detail null
does not erase it), and omits the key `x` absent from both. -/
theorem C10_merged_witness :
    dictFind? (CreatorRecord.merged
        [(("a" : String), some (1 : ℕ)), (("b" : String), none), (("c" : String), some 3)]
        (some [(("b" : String), some 2), (("c" : String), none)])) ("b") = some (some 2)
    ∧ dictFind? (CreatorRecord.merged
        [(("a" : String), some (1 : ℕ)), (("b" : String), none), (("c" : String), some 3)]
        (some [(("b" : String), some 2), (("c" : String), none)])) ("c") = some (some 3)
    ∧ dictFind? (CreatorRecord.merged
        [(("a" : String), some (1 : ℕ)), (("b" : String), none), (("c" : String), some 3)]
        (some [(("b" : String), some 2), (("c" : String), none)])) ("x") = none := by
  refine ⟨?_, ?_, ?_⟩
  · rw [C10_merged _ _ _ (by unfold NodupKeys; decide) (by unfold NodupKeys; decide)]
    decide
  · rw [C10_merged _ _ _ (by unfold NodupKeys; decide) (by unfold NodupKeys; decide)]
    decide
  · rw [C10_merged _ _ _ (by unfold NodupKeys; decide) (by unfold NodupKeys; decide)]
    decide

/-! ## Claim C8 -/

/-- C8: the interest score is the neutral `3.0` whenever either keyword set
is empty (tokens being the lower-cased alphanumeric runs of length at least
three built by `keyword_set`); otherwise it is `5.0` for an overlap of three
or more tokens, `4.0` for exactly two, `3.5` for exactly one, and `2.5` for
no overlap with both sets non-empty. -/
theorem C8_interest_score_buckets (topic objective : Option String) :
    (keyword_set [topic] = ∅ ∨ keyword_set [objective] = ∅ →
      estimate_interest_score topic objective = 3)
    ∧ (keyword_set [topic] ≠ ∅ → keyword_set [objective] ≠ ∅ →
        3 ≤ (keyword_set [topic] ∩ keyword_set [objective]).card →
        estimate_interest_score topic objective = 5)
    ∧ (keyword_set [topic] ≠ ∅ → keyword_set [objective] ≠ ∅ →
        (keyword_set [topic] ∩ keyword_set [objective]).card = 2 →
        estimate_interest_score topic objective = 4)
    ∧ (keyword_set [topic] ≠ ∅ → keyword_set [objective] ≠ ∅ →
        (keyword_set [topic] ∩ keyword_set [objective]).card = 1 →
        estimate_interest_score topic objective = 7/2)
    ∧ (keyword_set [topic] ≠ ∅ → keyword_set [objective] ≠ ∅ →
        (keyword_set [topic] ∩ keyword_set [objective]).card = 0 →
        estimate_interest_score topic objective = 5/2) := by
  refine ⟨?_, ?_, ?_, ?_, ?_⟩
  · intro h
    unfold estimate_interest_score
    rw [if_pos h]
  · intro h1 h2 h3
    unfold estimate_interest_score
    rw [if_neg (not_or.mpr ⟨h1, h2⟩), if_pos h3]
  · intro h1 h2 h3
    unfold estimate_interest_score
    rw [if_neg (not_or.mpr ⟨h1, h2⟩), if_neg (by omega), if_pos h3]
  · intro h1 h2 h3
    unfold estimate_interest_score
    rw [if_neg (not_or.mpr ⟨h1, h2⟩), if_neg (by omega), if_neg (by omega), if_pos h3]
  · intro h1 h2 h3
    unfold estimate_interest_score
    rw [if_neg (not_or.mpr ⟨h1, h2⟩), if_neg (by omega), if_neg (by omega), if_neg (by omega)]

/-- C8 witness: three overlapping tokens give `5.0`; a missing topic text
gives the neutral `3.0`. -/
theorem C8_interest_score_buckets_witness :
    estimate_interest_score (some ("fitness yoga wellness"))
      (some ("yoga and wellness for fitness fans")) = 5
    ∧ estimate_interest_score none (some ("anything here")) = 3 :=
  ⟨(C8_interest_score_buckets (some ("fitness yoga wellness"))
      (some ("yoga and wellness for fitness fans"))).2.1
        (by decide) (by decide) (by decide),
   (C8_interest_score_buckets none (some ("anything here"))).1 (by decide)⟩

/-! ## Claim C5 -/

/-- C5 (amended): the mislabel test examines the suffix-trimmed stripped
value text, not the raw value.  When the lower-cased original key contains
the word followers and the trimmed value contains a percent sign or the word
engagement, the occurrences of the capitalized substring `Followers` in the
platform-stripped key are replaced by `Engagement Rate` (falling back to
`Engagement Rate` if the replacement empties the key) and the value is then
parsed according to the rewritten key; symmetrically, when the lower-cased
key contains `engagement rate` (and not `followers`) and the trimmed value
contains the word followers without a percent sign, `Engagement Rate` is
replaced by `Followers` and the value parsed according to the rewritten
key. -/
theorem C5_mislabel_amended (key s : String) :
    (strContains (pyLower key) ("followers") = true →
     (strContains (pyLower (trimValueSuffixes (pyStrip s))) ("%") = true
      ∨ strContains (pyLower (trimValueSuffixes (pyStrip s))) ("engagement") = true) →
     normalize_detail_entry key (.vstr s) =
       (("Detail - ") ++ pyOrStr (pyReplace (stripPlatformKey key) ("Followers") ("Engagement Rate")) ("Engagement Rate"),
        detailParsedValue
          (pyOrStr (pyReplace (stripPlatformKey key) ("Followers") ("Engagement Rate")) ("Engagement Rate"))
          (trimValueSuffixes (pyStrip s))))
    ∧ (strContains (pyLower key) ("followers") = false →
       strContains (pyLower key) ("engagement rate") = true →
       strContains (pyLower (trimValueSuffixes (pyStrip s))) ("followers") = true →
       strContains (pyLower (trimValueSuffixes (pyStrip s))) ("%") = false →
       normalize_detail_entry key (.vstr s) =
         (("Detail - ") ++ pyOrStr (pyReplace (stripPlatformKey key) ("Engagement Rate") ("Followers")) ("Followers"),
          detailParsedValue
            (pyOrStr (pyReplace (stripPlatformKey key) ("Engagement Rate") ("Followers")) ("Followers"))
            (trimValueSuffixes (pyStrip s)))) := by
  constructor
  · intro h1 h2
    unfold normalize_detail_entry
    dsimp only
    rw [if_pos ⟨h1, h2⟩]
  · intro h1 h2 h3 h4
    unfold normalize_detail_entry
    dsimp only
    rw [if_neg (by simp [h1]), if_pos ⟨h2, h3, by simp [h4]⟩]

/-- C5 counterexample: for key `Followers` and value `4.5 engagement rate`,
the claim demands the key be rewritten to an Engagement-Rate key (the value
text contains the word engagement), but the code trims the literal
` engagement rate` suffix from the value before the mislabel test, so the
key stays `Detail - Followers` and the value is parsed as the compact number
`4.5`. -/
theorem C5_mislabel_counterexample :
    normalize_detail_entry ("Followers") (.vstr ("4.5 engagement rate"))
      = (("Detail - Followers"), .vnum (9/2))
    ∧ strContains (pyLower ("Followers")) ("followers") = true
    ∧ strContains (pyLower ("4.5 engagement rate")) ("engagement") = true
    ∧ strContains (pyLower ("Detail - Followers")) ("engagement rate") = false := by
  refine ⟨?_, by decide, by decide, by decide⟩
  unfold normalize_detail_entry
  dsimp only
  rw [if_neg (by decide), if_neg (by decide)]
  have h1 : stripPlatformKey ("Followers") = ("Followers") := by decide
  have h2 : trimValueSuffixes (pyStrip ("4.5 engagement rate")) = ("4.5") := by decide
  rw [h1, h2]
  have h3 : parse_compact_number ("4.5") = some (9/2) := by
    have hc : pyUpper (pyStrip (pyReplace ("4.5") (",") (""))) = ("4.5") := by decide
    unfold parse_compact_number
    dsimp only
    rw [hc]
    have hd : ("4.5" : String).data = ['4', '.', '5'] := rfl
    rw [hd]
    simp [compactMatch, digitsVal, fracVal]
    norm_num
  unfold detailParsedValue
  dsimp only
  rw [if_pos (show strContains (pyLower ("Followers")) ("followers") = true by decide)]
  rw [h3]
  rfl

/-- C5 witness: the amended branches at concrete inputs — a mislabeled
`Instagram Followers` key holding the percentage text `4.56% engagement` is
rewritten to the Engagement-Rate key and parsed as `4.56`, and a mislabeled
`Engagement Rate` key holding follower text is rewritten to the Followers
key (whose compact-number parse finds no anchored numeric token, keeping the
text). -/
theorem C5_mislabel_amended_witness :
    normalize_detail_entry ("Instagram Followers") (.vstr ("4.56% engagement"))
      = (("Detail - Engagement Rate"), .vnum (114/25))
    ∧ normalize_detail_entry ("Engagement Rate") (.vstr ("5000 followers listed"))
      = (("Detail - Followers"), .vstr ("5000 followers listed")) := by
  constructor
  · have h := (C5_mislabel_amended ("Instagram Followers") ("4.56% engagement")).1 (by decide)
      (Or.inl (by decide))
    rw [h]
    rw [show pyOrStr (pyReplace (stripPlatformKey ("Instagram Followers")) ("Followers") ("Engagement Rate")) ("Engagement Rate") = ("Engagement Rate") from by decide]
    rw [show trimValueSuffixes (pyStrip ("4.56% engagement")) = ("4.56% engagement") from by decide]
    have hp : parse_percentage_value ("4.56% engagement") = some (114/25) := by
      have hr : pyReplace ("4.56% engagement") ("%") ("") = ("4.56 engagement") := by decide
      unfold parse_percentage_value
      rw [hr]
      have hd : ("4.56 engagement" : String).data
          = ['4', '.', '5', '6', ' ', 'e', 'n', 'g', 'a', 'g', 'e', 'm', 'e', 'n', 't'] := rfl
      rw [hd]
      simp [numSearch, numMatchAt, digitsVal, fracVal]
      norm_num
    unfold detailParsedValue
    dsimp only
    rw [if_neg (by decide), if_pos (show strContains (pyLower ("Engagement Rate")) ("engagement rate") = true by decide)]
    rw [hp]
    rfl
  · have h := (C5_mislabel_amended ("Engagement Rate") ("5000 followers listed")).2
      (by decide) (by decide) (by decide) (by decide)
    rw [h]
    rw [show pyOrStr (pyReplace (stripPlatformKey ("Engagement Rate")) ("Engagement Rate") ("Followers")) ("Followers") = ("Followers") from by decide]
    rw [show trimValueSuffixes (pyStrip ("5000 followers listed")) = ("5000 followers listed") from by decide]
    have hp : parse_compact_number ("5000 followers listed") = none := by decide
    unfold detailParsedValue
    dsimp only
    rw [if_pos (show strContains (pyLower ("Followers")) ("followers") = true by decide)]
    rw [hp]
    rfl

/-! ## Claim C7 -/

theorem upsert_ret_mem {Demo : Type} (empty : Demo) (t : List (InfluencerRow Demo))
    (p : Profile Demo) (now : String) :
    (upsert_influencer empty t p now).2 ∈ (upsert_influencer empty t p now).1 := by
  unfold upsert_influencer
  dsimp only
  rcases hfind : t.find? (fun r => decide (rowMatches (profileKey p) r)) with _ | r0
  · dsimp only
    exact List.mem_append_right _ (List.mem_singleton.mpr rfl)
  · dsimp only
    have hp := List.find?_some hfind
    simp only [decide_eq_true_eq] at hp
    refine List.mem_map.mpr ⟨r0, List.mem_of_find?_eq_some hfind, ?_⟩
    rw [if_pos hp]

theorem upsert_ret_key {Demo : Type} (empty : Demo) (t : List (InfluencerRow Demo))
    (p : Profile Demo) (now : String) :
    rowMatches (profileKey p) (upsert_influencer empty t p now).2 := by
  unfold upsert_influencer
  dsimp only
  rcases hfind : t.find? (fun r => decide (rowMatches (profileKey p) r)) with _ | r0
  · exact ⟨rfl, rfl⟩
  · have hp := List.find?_some hfind
    simp only [decide_eq_true_eq] at hp
    exact hp

theorem upsert_preserves {Demo : Type} (empty : Demo) (t : List (InfluencerRow Demo))
    (p : Profile Demo) (now : String) (r : InfluencerRow Demo) (hr : r ∈ t) :
    ∃ r2 ∈ (upsert_influencer empty t p now).1,
      r2.id = r.id ∧ r2.handle = r.handle ∧ r2.platform = r.platform := by
  unfold upsert_influencer
  dsimp only
  rcases hfind : t.find? (fun r => decide (rowMatches (profileKey p) r)) with _ | r0
  · exact ⟨r, List.mem_append_left _ hr, rfl, rfl, rfl⟩
  · refine ⟨_, List.mem_map_of_mem _ hr, ?_, ?_, ?_⟩ <;>
      by_cases hm : rowMatches (profileKey p) r
    · rw [if_pos hm]
    · rw [if_neg hm]
    · rw [if_pos hm]
    · rw [if_neg hm]
    · rw [if_pos hm]
    · rw [if_neg hm]

theorem ensure_ret (t : List CampaignInfluencerRow) (cid iid : Nat) (now : String) :
    (ensure_campaign_influencer t cid iid now).2 ∈ (ensure_campaign_influencer t cid iid now).1
    ∧ (ensure_campaign_influencer t cid iid now).2.campaign_id = cid
    ∧ (ensure_campaign_influencer t cid iid now).2.influencer_id = iid := by
  unfold ensure_campaign_influencer
  dsimp only
  rcases hfind : t.find? (fun a => decide (assocMatches cid iid a)) with _ | a0
  · exact ⟨List.mem_append_right _ (List.mem_singleton.mpr rfl), rfl, rfl⟩
  · have hp := List.find?_some hfind
    simp only [decide_eq_true_eq] at hp
    refine ⟨List.mem_map.mpr ⟨a0, List.mem_of_find?_eq_some hfind, ?_⟩, hp.1, hp.2⟩
    rw [if_pos hp]

theorem ensure_preserves (t : List CampaignInfluencerRow) (cid iid : Nat) (now : String)
    (a : CampaignInfluencerRow) (ha : a ∈ t) :
    ∃ a2 ∈ (ensure_campaign_influencer t cid iid now).1,
      a2.campaign_id = a.campaign_id ∧ a2.influencer_id = a.influencer_id := by
  unfold ensure_campaign_influencer
  dsimp only
  rcases hfind : t.find? (fun a => decide (assocMatches cid iid a)) with _ | a0
  · exact ⟨a, List.mem_append_left _ ha, rfl, rfl⟩
  · refine ⟨_, List.mem_map_of_mem _ ha, ?_, ?_⟩ <;>
      by_cases hm : assocMatches cid iid a
    · rw [if_pos hm]
    · rw [if_neg hm]
    · rw [if_pos hm]
    · rw [if_neg hm]

/-- A creator is durably imported for a campaign: some influencer row
carries its dedup key, and some association row links the campaign to that
row's id. -/
def importedInv {Demo : Type} (campaign_id : Nat) (c : Creator Demo) (st : DBState Demo) : Prop :=
  ∃ r ∈ st.influencers, rowMatches (profileKey (ingestProfile c)) r
    ∧ ∃ a ∈ st.assocs, a.campaign_id = campaign_id ∧ a.influencer_id = r.id

theorem ingestStep_establishes {Demo : Type} (empty : Demo) (cid : Nat) (now : String)
    (c : Creator Demo) (st : DBState Demo) :
    importedInv cid c (ingestStep empty cid now c st).1 := by
  unfold ingestStep importedInv
  dsimp only
  refine ⟨(upsert_influencer empty st.influencers (ingestProfile c) now).2,
    upsert_ret_mem empty st.influencers (ingestProfile c) now,
    upsert_ret_key empty st.influencers (ingestProfile c) now,
    (ensure_campaign_influencer st.assocs cid
      (upsert_influencer empty st.influencers (ingestProfile c) now).2.id now).2,
    (ensure_ret st.assocs cid _ now).1,
    (ensure_ret st.assocs cid _ now).2.1,
    (ensure_ret st.assocs cid _ now).2.2⟩

theorem ingestStep_preserves {Demo : Type} (empty : Demo) (cid : Nat) (now : String)
    (c c2 : Creator Demo) (st : DBState Demo) (h : importedInv cid c2 st) :
    importedInv cid c2 (ingestStep empty cid now c st).1 := by
  obtain ⟨r, hr, hkey, a, ha, hc, hi⟩ := h
  obtain ⟨r2, hr2, hid, hh, hpl⟩ :=
    upsert_preserves empty st.influencers (ingestProfile c) now r hr
  obtain ⟨a2, ha2, hc2, hi2⟩ :=
    ensure_preserves st.assocs cid
      (upsert_influencer empty st.influencers (ingestProfile c) now).2.id now a ha
  exact ⟨r2, hr2, ⟨hh.trans hkey.1, hpl.trans hkey.2⟩,
    a2, ha2, hc2.trans hc, (hi2.trans hi).trans hid.symm⟩

/-- Induction over the import loop: the imported ids grow by one per usable
record, exactly one warning is appended per unusable record, and every
usable record (as well as everything imported before) ends up stored and
associated. -/
theorem ingestLoop_spec {Demo : Type} (empty : Demo) (cid : Nat) (now : String) :
    ∀ (creators : List (Creator Demo)) (st : DBState Demo) (ids : List Nat)
      (warns : List String),
      (ingestLoop empty cid now creators st ids warns).2.1.length
        = ids.length + (creators.filter usableCreator).length
      ∧ (ingestLoop empty cid now creators st ids warns).2.2
        = warns ++ List.replicate
            (creators.filter (fun c => ! usableCreator c)).length skipWarning
      ∧ (∀ c, importedInv cid c st →
          importedInv cid c (ingestLoop empty cid now creators st ids warns).1)
      ∧ (∀ c ∈ creators, usableCreator c = true →
          importedInv cid c (ingestLoop empty cid now creators st ids warns).1) := by
  intro creators
  induction creators with
  | nil =>
    intro st ids warns
    refine ⟨by simp [ingestLoop], by simp [ingestLoop], fun c h => h, by simp⟩
  | cons c0 rest ih =>
    intro st ids warns
    by_cases hu : usableCreator c0 = true
    · simp only [ingestLoop]
      rw [if_pos hu]
      obtain ⟨ih1, ih2, ih3, ih4⟩ :=
        ih (ingestStep empty cid now c0 st).1 (ids ++ [(ingestStep empty cid now c0 st).2]) warns
      refine ⟨?_, ?_, ?_, ?_⟩
      · rw [ih1]
        simp [List.filter_cons, hu]
        omega
      · rw [ih2]
        simp [List.filter_cons, hu]
      · intro c h
        exact ih3 c (ingestStep_preserves empty cid now c0 c st h)
      · intro c hc hcu
        rcases List.mem_cons.mp hc with rfl | hmem
        · exact ih3 c (ingestStep_establishes empty cid now c st)
        · exact ih4 c hmem hcu
    · simp only [ingestLoop]
      rw [if_neg hu]
      obtain ⟨ih1, ih2, ih3, ih4⟩ := ih st ids (warns ++ [skipWarning])
      refine ⟨?_, ?_, ?_, ?_⟩
      · rw [ih1]
        simp [List.filter_cons, hu]
      · rw [ih2]
        simp [List.filter_cons, hu, List.replicate_succ]
      · exact ih3
      · intro c hc hcu
        rcases List.mem_cons.mp hc with rfl | hmem
        · exact absurd hcu hu
        · exact ih4 c hmem hcu

/-- C7: a batch import counts exactly the records with a usable handle,
appends exactly one warning string per unusable record without aborting the
batch, and leaves every usable record upserted in the influencer store and
associated to the campaign. -/
theorem C7_batch_import {Demo : Type} (empty : Demo) (cid : Nat)
    (link now : String) (creators : List (Creator Demo)) (st : DBState Demo) :
    (ingest_creatoriq_report empty cid link creators st now).2.1
      = (creators.filter usableCreator).length
    ∧ (ingest_creatoriq_report empty cid link creators st now).2.2
      = List.replicate (creators.filter (fun c => ! usableCreator c)).length skipWarning
    ∧ ∀ c ∈ creators, usableCreator c = true →
        importedInv cid c (ingest_creatoriq_report empty cid link creators st now).1 := by
  obtain ⟨h1, h2, h3, h4⟩ := ingestLoop_spec empty cid now creators st [] []
  unfold ingest_creatoriq_report
  dsimp only
  refine ⟨by rw [h1]; simp, by rw [h2]; simp, ?_⟩
  intro c hc hcu
  have hinv := h4 c hc hcu
  exact hinv

/-- One synthetic collection-API creator with a usable handle. -/
def wCreator (u : String) : Creator Unit :=
  { listCreatorsId := none
    fullName := some (("Creator ") ++ u)
    primaryNetwork := some ("Instagram")
    primarySocialUsername := some u
    profilePictureURL := none
    totalSocialConnections := some 1000
    accounts := []
    demoFields := () }

/-- A malformed creator: empty username, no list id — its normalized handle
is falsy. -/
def wBadCreator : Creator Unit :=
  { listCreatorsId := none
    fullName := some ("Nameless")
    primaryNetwork := some ("Instagram")
    primarySocialUsername := some ("")
    profilePictureURL := none
    totalSocialConnections := none
    accounts := []
    demoFields := () }

/-- Five records, the second one malformed. -/
def wCreators : List (Creator Unit) :=
  [wCreator ("ana"), wBadCreator, wCreator ("ben"), wCreator ("cho"), wCreator ("dee")]

/-- C7 witness: importing five records with one empty-handle record among
them yields an imported count of 4, exactly one warning, and the first
usable record stored and associated. -/
theorem C7_batch_import_witness :
    (ingest_creatoriq_report () 1 ("https://www.creatoriq.com/lists/report/x")
      wCreators ⟨[], [], []⟩ ("t0")).2.1 = 4
    ∧ (ingest_creatoriq_report () 1 ("https://www.creatoriq.com/lists/report/x")
      wCreators ⟨[], [], []⟩ ("t0")).2.2 = [skipWarning]
    ∧ importedInv 1 (wCreator ("ana"))
        (ingest_creatoriq_report () 1 ("https://www.creatoriq.com/lists/report/x")
          wCreators ⟨[], [], []⟩ ("t0")).1 := by
  obtain ⟨h1, h2, h3⟩ := C7_batch_import () 1
    ("https://www.creatoriq.com/lists/report/x") ("t0") wCreators ⟨[], [], []⟩
  refine ⟨?_, ?_, ?_⟩
  · rw [h1]
    decide
  · rw [h2]
    decide
  · exact h3 (wCreator ("ana")) (by decide) (by decide)
